import Mathlib

/-!
Shallow embedding of `make.py` from linux-on-litex-vexriscv: the board
registry, per-board capability sets and `soc_kwargs` overrides, the
parameter-resolution logic of `main` (lines 471-498), and the
capability-driven attachment sequence (lines 505-539) recorded as an
explicit trace of attachment calls.
-/

namespace LitexLinux

/-- A Python value stored in a `soc_kwargs` dict.  Every float literal in
the source (`500e3`, `115.2e3`) denotes an exactly integral double, so
floats are carried as their integral value. -/
inductive Value where
  | vint (n : Int)
  | vfloat (n : Int)
  | vbool (b : Bool)
  | vstr (s : String)
deriving DecidableEq

/-- A Python dict with string keys, as an association list in insertion
order with unique keys. -/
abbrev Dict := List (String × Value)

/-- Python `d[k] = v` / single-key `d.update(k=v)`: replace the value at
an existing key (keeping its position), else append the new pair. -/
def setKey : Dict → String → Value → Dict
  | [], k, v => [(k, v)]
  | p :: rest, k, v => if p.1 = k then (k, v) :: rest else p :: setKey rest k v

/-- Python `d.update(e)`: set each key/value pair of `e` in `d`, in order. -/
def dictUpdate (d e : Dict) : Dict :=
  e.foldl (fun acc p => setKey acc p.1 p.2) d

/-- Lookup in an association list with string keys (first matching key),
the semantics of Python `d[k]` membership/access. -/
def assocLookup {β : Type} : List (String × β) → String → Option β
  | [], _ => none
  | p :: rest, k => if p.1 = k then some p.2 else assocLookup rest k

/-- Python `d[k]` as an `Option`. -/
def dictLookup (d : Dict) (k : String) : Option Value :=
  assocLookup d k

/-- The `SPIFLASH_PAGE_SIZE` / `SPIFLASH_SECTOR_SIZE` / `SPIFLASH_DUMMY_CYCLES`
class attributes declared by spiflash-capable board classes. -/
structure SpiFlashConstants where
  pageSize : Nat
  sectorSize : Nat
  dummyCycles : Nat
deriving DecidableEq

/-- A board class of `make.py`: the `litex_boards` target module it wraps
(opaque to the core), its `soc_capabilities` set, its own `soc_kwargs`
class attribute when it declares one (when it does not, Python attribute
lookup on `board.soc_kwargs` yields the shared `Board.soc_kwargs` dict),
its SPIFLASH constants when declared, and its bitstream extension. -/
structure BoardDesc where
  socCls : String
  soc_capabilities : List String
  hasOwnSocKwargs : Bool
  soc_kwargs : Dict := []
  spiflash : Option SpiFlashConstants := none
  bitstream_ext : String
deriving DecidableEq

/-- The class-level `Board.soc_kwargs = {"integrated_rom_size": 0x10000}`
dict (make.py line 17).  In the Python source this is a single shared
mutable object. -/
def Board_soc_kwargs : Dict := [("integrated_rom_size", Value.vint 0x10000)]

def AcornCLE215 : BoardDesc :=
  { socCls := "acorn_cle_215", soc_capabilities := ["serial", "sata"],
    hasOwnSocKwargs := false, bitstream_ext := ".bit" }

def Arty : BoardDesc :=
  { socCls := "arty",
    soc_capabilities := ["serial", "ethernet", "spiflash", "spisdcard", "leds",
      "rgb_led", "switches", "spi", "i2c", "xadc", "mmcm", "icap_bitstream"],
    hasOwnSocKwargs := false,
    spiflash := some { pageSize := 256, sectorSize := 64 * 1024, dummyCycles := 11 },
    bitstream_ext := ".bit" }

/-- ArtyA7 subclasses Arty, overriding only `SPIFLASH_DUMMY_CYCLES`. -/
def ArtyA7 : BoardDesc :=
  { Arty with spiflash := some { pageSize := 256, sectorSize := 64 * 1024, dummyCycles := 7 } }

/-- ArtyS7 subclasses Arty (inheriting its SPIFLASH constants) with its
own `__init__` and capability set. -/
def ArtyS7 : BoardDesc :=
  { socCls := "arty_s7",
    soc_capabilities := ["serial", "spiflash", "spisdcard", "leds", "rgb_led",
      "switches", "spi", "i2c", "xadc", "mmcm", "icap_bitstream"],
    hasOwnSocKwargs := false,
    spiflash := some { pageSize := 256, sectorSize := 64 * 1024, dummyCycles := 11 },
    bitstream_ext := ".bit" }

def NeTV2 : BoardDesc :=
  { socCls := "netv2",
    soc_capabilities := ["serial", "ethernet", "spiflash", "spisdcard", "leds",
      "framebuffer", "xadc"],
    hasOwnSocKwargs := false,
    spiflash := some { pageSize := 256, sectorSize := 64 * 1024, dummyCycles := 11 },
    bitstream_ext := ".bit" }

def Genesys2 : BoardDesc :=
  { socCls := "genesys2", soc_capabilities := ["usb_fifo", "ethernet", "spisdcard"],
    hasOwnSocKwargs := false, bitstream_ext := ".bit" }

def KC705 : BoardDesc :=
  { socCls := "kc705",
    soc_capabilities := ["serial", "ethernet", "spisdcard", "leds", "xadc"],
    hasOwnSocKwargs := true,
    soc_kwargs := [("uart_baudrate", Value.vfloat 500000)],
    bitstream_ext := ".bit" }

def KCU105 : BoardDesc :=
  { socCls := "kcu105", soc_capabilities := ["serial", "ethernet", "spisdcard"],
    hasOwnSocKwargs := true,
    soc_kwargs := [("uart_baudrate", Value.vfloat 115200)],
    bitstream_ext := ".bit" }

def ZCU104 : BoardDesc :=
  { socCls := "zcu104", soc_capabilities := ["serial"],
    hasOwnSocKwargs := false, bitstream_ext := ".bit" }

def Nexys4DDR : BoardDesc :=
  { socCls := "nexys4ddr", soc_capabilities := ["serial", "ethernet", "spisdcard"],
    hasOwnSocKwargs := false, bitstream_ext := ".bit" }

def NexysVideo : BoardDesc :=
  { socCls := "nexys_video", soc_capabilities := ["usb_fifo", "spisdcard", "framebuffer"],
    hasOwnSocKwargs := false, bitstream_ext := ".bit" }

def MiniSpartan6 : BoardDesc :=
  { socCls := "minispartan6", soc_capabilities := ["usb_fifo", "spisdcard"],
    hasOwnSocKwargs := true,
    soc_kwargs := [("sdram_sys2x", Value.vbool true)],
    bitstream_ext := ".bit" }

def Pipistrello : BoardDesc :=
  { socCls := "pipistrello", soc_capabilities := ["serial"],
    hasOwnSocKwargs := false, bitstream_ext := ".bit" }

def XCU1525 : BoardDesc :=
  { socCls := "xcu1525", soc_capabilities := ["serial", "sata"],
    hasOwnSocKwargs := false, bitstream_ext := ".bit" }

def VersaECP5 : BoardDesc :=
  { socCls := "versa_ecp5", soc_capabilities := ["serial", "ethernet", "spiflash"],
    hasOwnSocKwargs := false,
    spiflash := some { pageSize := 256, sectorSize := 64 * 1024, dummyCycles := 11 },
    bitstream_ext := ".svf" }

def ULX3S : BoardDesc :=
  { socCls := "ulx3s", soc_capabilities := ["serial", "spisdcard"],
    hasOwnSocKwargs := false, bitstream_ext := ".svf" }

def HADBadge : BoardDesc :=
  { socCls := "hadbadge", soc_capabilities := ["serial", "spiflash"],
    hasOwnSocKwargs := false,
    spiflash := some { pageSize := 256, sectorSize := 64 * 1024, dummyCycles := 8 },
    bitstream_ext := ".bit" }

def OrangeCrab : BoardDesc :=
  { socCls := "orangecrab", soc_capabilities := ["usb_acm", "spisdcard"],
    hasOwnSocKwargs := true,
    soc_kwargs := [("sys_clk_freq", Value.vint 64000000),
                   ("integrated_rom_size", Value.vint 0xa000)],
    bitstream_ext := ".bit" }

def CamLink4K : BoardDesc :=
  { socCls := "camlink_4k", soc_capabilities := ["serial"],
    hasOwnSocKwargs := false, bitstream_ext := ".bit" }

def TrellisBoard : BoardDesc :=
  { socCls := "trellisboard", soc_capabilities := ["serial", "spisdcard"],
    hasOwnSocKwargs := false, bitstream_ext := ".svf" }

def ECPIX5 : BoardDesc :=
  { socCls := "ecpix5", soc_capabilities := ["serial", "ethernet", "sdcard"],
    hasOwnSocKwargs := false, bitstream_ext := ".svf" }

def De10Lite : BoardDesc :=
  { socCls := "de10lite", soc_capabilities := ["serial"],
    hasOwnSocKwargs := false, bitstream_ext := ".sof" }

def De10Nano : BoardDesc :=
  { socCls := "de10nano",
    soc_capabilities := ["serial", "spisdcard", "leds", "switches"],
    hasOwnSocKwargs := true,
    soc_kwargs := [("with_mister_sdram", Value.vbool true)],
    bitstream_ext := ".sof" }

def De0Nano : BoardDesc :=
  { socCls := "de0nano", soc_capabilities := ["serial"],
    hasOwnSocKwargs := true,
    soc_kwargs := [("integrated_rom_size", Value.vint 0x8000)],
    bitstream_ext := ".sof" }

def Qmtech_EP4CE15 : BoardDesc :=
  { socCls := "qmtech_ep4ce15", soc_capabilities := ["serial"],
    hasOwnSocKwargs := true,
    soc_kwargs := [("integrated_sram_size", Value.vint 0x800),
                   ("integrated_rom_size", Value.vint 0x8000)],
    bitstream_ext := ".sof" }

/-- The board registry (make.py lines 412-444), in declaration order. -/
def supported_boards : List (String × BoardDesc) :=
  [("acorn_cle_215", AcornCLE215),
   ("arty",          Arty),
   ("arty_a7",       ArtyA7),
   ("arty_s7",       ArtyS7),
   ("netv2",         NeTV2),
   ("genesys2",      Genesys2),
   ("kc705",         KC705),
   ("kcu105",        KCU105),
   ("zcu104",        ZCU104),
   ("nexys4ddr",     Nexys4DDR),
   ("nexys_video",   NexysVideo),
   ("minispartan6",  MiniSpartan6),
   ("pipistrello",   Pipistrello),
   ("xcu1525",       XCU1525),
   ("versa_ecp5",    VersaECP5),
   ("ulx3s",         ULX3S),
   ("hadbadge",      HADBadge),
   ("orangecrab",    OrangeCrab),
   ("camlink_4k",    CamLink4K),
   ("trellisboard",  TrellisBoard),
   ("ecpix5",        ECPIX5),
   ("de0nano",       De0Nano),
   ("de10lite",      De10Lite),
   ("de10nano",      De10Nano),
   ("qmtech_ep4ce15", Qmtech_EP4CE15)]

/-- The parsed command-line arguments that reach the resolution and
assembly logic.  `device`/`variant`/`toolchain` default to the `None`
sentinel; the other defaults are the argparse defaults.  (The argparse
default for `--spi-clk-freq` is the Python float `1e6`; it is integral
and is carried here as an `Int`, as is `--spi-data-width`.) -/
structure Args where
  board : String
  device : Option String := none
  variant : Option String := none
  toolchain : Option String := none
  local_ip : String := "192.168.1.50"
  remote_ip : String := "192.168.1.100"
  spi_data_width : Int := 8
  spi_clk_freq : Int := 1000000
  video : String := "1920x1080_60Hz"
deriving DecidableEq

/-- One character of Python `str.replace(" ", "_")` (the pattern is a
single character, so the replacement acts characterwise). -/
def spaceToUnderscore (c : Char) : Char :=
  if c = ' ' then '_' else c

/-- Python `str.lower()` restricted to the ASCII range (board names are
ASCII; `Char.toLower` matches `str.lower` there). -/
def pyLower (s : String) : String :=
  String.mk (s.data.map Char.toLower)

/-- Python `s.replace(" ", "_")`. -/
def pyReplaceSpaceUnderscore (s : String) : String :=
  String.mk (s.data.map spaceToUnderscore)

/-- Board-name normalization (make.py lines 474-475): lowercase, then
replace spaces with underscores. -/
def normalizeBoardName (s : String) : String :=
  pyReplaceSpaceUnderscore (pyLower s)

/-- Board-name selection (make.py lines 471-476): the exact string
`"all"` (compared before normalization) fans out to every registered
board in registry order; any other input is normalized and used as a
single board name. -/
def board_names (a : Args) : List String :=
  if a.board = "all" then supported_boards.map Prod.fst
  else [normalizeBoardName a.board]

/-- Registry lookup of a raw user-supplied board name, after
normalization (`supported_boards[board_name]`; a missing key raises
KeyError in Python). -/
def resolve_board (raw : String) : Option BoardDesc :=
  assocLookup supported_boards (normalizeBoardName raw)

/-- Modelled from the spec: the video timing record stored in
`soc_linux.video_resolutions` (soc_linux.py is not under src/); the spec
leaves the record's fields opaque, so only the mode token is carried. -/
structure VideoTiming where
  token : String
deriving DecidableEq

/-- Modelled from the spec: `soc_linux.video_resolutions`, the closed
mapping from resolution-and-refresh-rate tokens to timing records
(soc_linux.py is not under src/).  The spec names `"1920x1080_60Hz"` as a
supported mode and membership as the sole validation performed. -/
def video_resolutions : List (String × VideoTiming) :=
  [("1920x1080_60Hz", ⟨"1920x1080_60Hz"⟩)]

/-- One attachment call emitted against the SoC under construction
(make.py lines 505-539), with the arguments the source passes. -/
inductive AttachCall where
  | add_sdcard_pmod_extension
  | add_mmcm (count : Int)
  | add_spi_flash (dummy_cycles : Nat)
  | add_constant (cname : String) (value : Nat)
  | add_spi_sdcard
  | add_sdcard
  | configure_ethernet (local_ip : String) (remote_ip : String)
  | add_rgb_led
  | add_switches
  | add_spi (data_width : Int) (clk_freq : Int)
  | add_i2c
  | add_xadc
  | add_framebuffer (video_settings : VideoTiming)
  | add_icap_bitstream
  | configure_boot
deriving DecidableEq

/-- How a board's assembly can abort: the failed
`assert args.video in video_resolutions.keys()` (the spec's
`ConfigurationError`), or a missing SPIFLASH_* class attribute (Python
AttributeError; never reached for a registered board). -/
inductive AssembleError where
  | configurationError
  | attributeError
deriving DecidableEq

/-- The `icap_bitstream` rule (make.py lines 537-538). -/
def icapCalls (b : BoardDesc) : List AttachCall :=
  if "icap_bitstream" ∈ b.soc_capabilities then [AttachCall.add_icap_bitstream] else []

/-- The capability rules between spiflash and framebuffer (make.py lines
515-532; the `leds` rule is commented out in the source). -/
def midCalls (b : BoardDesc) (a : Args) : List AttachCall :=
  (if "spisdcard" ∈ b.soc_capabilities then [AttachCall.add_spi_sdcard] else [])
  ++ (if "sdcard" ∈ b.soc_capabilities then [AttachCall.add_sdcard] else [])
  ++ (if "ethernet" ∈ b.soc_capabilities then
        [AttachCall.configure_ethernet a.local_ip a.remote_ip] else [])
  ++ (if "rgb_led" ∈ b.soc_capabilities then [AttachCall.add_rgb_led] else [])
  ++ (if "switches" ∈ b.soc_capabilities then [AttachCall.add_switches] else [])
  ++ (if "spi" ∈ b.soc_capabilities then
        [AttachCall.add_spi a.spi_data_width a.spi_clk_freq] else [])
  ++ (if "i2c" ∈ b.soc_capabilities then [AttachCall.add_i2c] else [])
  ++ (if "xadc" ∈ b.soc_capabilities then [AttachCall.add_xadc] else [])

/-- The framebuffer rule (make.py lines 533-536) followed by the
icap_bitstream rule and the unconditional `soc.configure_boot()` (line
539): the failed assert aborts before `add_framebuffer` and nothing
after it runs. -/
def tailCalls (b : BoardDesc) (a : Args) : List AttachCall × Option AssembleError :=
  if "framebuffer" ∈ b.soc_capabilities then
    match assocLookup video_resolutions a.video with
    | some vs => ([AttachCall.add_framebuffer vs] ++ icapCalls b
                   ++ [AttachCall.configure_boot], none)
    | none => ([], some AssembleError.configurationError)
  else (icapCalls b ++ [AttachCall.configure_boot], none)

/-- The full attachment sequence for one board (make.py lines 505-539):
the arty/arty_a7 sdcard-pmod platform extension, then the ordered
capability rules, then `configure_boot`; returns the calls emitted
before any abort, with the abort reason. -/
def assemble (board_name : String) (b : BoardDesc) (a : Args) :
    List AttachCall × Option AssembleError :=
  let ext := if board_name = "arty" ∨ board_name = "arty_a7"
             then [AttachCall.add_sdcard_pmod_extension] else []
  let mm := if "mmcm" ∈ b.soc_capabilities then [AttachCall.add_mmcm 2] else []
  if "spiflash" ∈ b.soc_capabilities then
    match b.spiflash with
    | none => (ext ++ mm, some AssembleError.attributeError)
    | some c =>
      let pre := ext ++ mm
        ++ [AttachCall.add_spi_flash c.dummyCycles,
            AttachCall.add_constant "SPIFLASH_PAGE_SIZE" c.pageSize,
            AttachCall.add_constant "SPIFLASH_SECTOR_SIZE" c.sectorSize]
        ++ midCalls b a
      let t := tailCalls b a
      (pre ++ t.1, t.2)
  else
    let pre := ext ++ mm ++ midCalls b a
    let t := tailCalls b a
    (pre ++ t.1, t.2)

/-- The CLI-override layer (make.py lines 485-490): each of
`device`/`variant`/`toolchain` is written into the kwargs dict only when
the user explicitly set it (the `None` sentinel is skipped). -/
def applyCli (d : Dict) (a : Args) : Dict :=
  let d1 := match a.device with
            | some x => setKey d "device" (Value.vstr x)
            | none => d
  let d2 := match a.variant with
            | some x => setKey d1 "variant" (Value.vstr x)
            | none => d1
  match a.toolchain with
  | some x => setKey d2 "toolchain" (Value.vstr x)
  | none => d2

/-- The capability-implied forcing layer (make.py lines 491-498):
usb_fifo then usb_acm select `uart_name` (acm, checked second, wins when
both are present), and ethernet/sata force their `with_X` flags. -/
def applyCapabilityForcing (d : Dict) (caps : List String) : Dict :=
  let d1 := if "usb_fifo" ∈ caps then setKey d "uart_name" (Value.vstr "usb_fifo") else d
  let d2 := if "usb_acm" ∈ caps then setKey d1 "uart_name" (Value.vstr "usb_acm") else d1
  let d3 := if "ethernet" ∈ caps then setKey d2 "with_ethernet" (Value.vbool true) else d2
  if "sata" ∈ caps then setKey d3 "with_sata" (Value.vbool true) else d3

/-- Per-board kwargs resolution (make.py lines 483-498).  `shared` is the
dict object named by `Board.soc_kwargs` at loop entry: line 483 binds it
without copying, so every update below mutates that shared object, and
the returned dict is also the shared state seen by the next board of an
`--board all` run.  A board class without its own `soc_kwargs` attribute
resolves `board.soc_kwargs` to that same shared object (a self-update). -/
def resolve_soc_kwargs (shared : Dict) (b : BoardDesc) (a : Args) : Dict :=
  applyCapabilityForcing
    (applyCli (dictUpdate shared (if b.hasOwnSocKwargs then b.soc_kwargs else shared)) a)
    b.soc_capabilities

/-- Outcome of one board's pipeline: `unknownBoard` is the KeyError at
registry lookup (make.py line 480), raised before any SoC construction
and before any attachment call; otherwise the resolved kwargs (passed to
`SoCLinux`), the attachment trace, and the abort reason if any. -/
inductive PipelineOutcome where
  | unknownBoard
  | run (soc_kwargs : Dict) (calls : List AttachCall) (err : Option AssembleError)
deriving DecidableEq

/-- One board's pipeline from a given shared-kwargs state. -/
def board_pipeline (shared : Dict) (name : String) (a : Args) : PipelineOutcome :=
  match assocLookup supported_boards name with
  | none => PipelineOutcome.unknownBoard
  | some b =>
    PipelineOutcome.run (resolve_soc_kwargs shared b a) (assemble name b a).1 (assemble name b a).2

/-- The board iteration of `main` (make.py lines 479-539), threading the
shared `Board.soc_kwargs` object through successive boards; an uncaught
exception (KeyError or the video assert) aborts the whole run. -/
def run_boards (a : Args) : Dict → List String →
    List (String × Dict × List AttachCall × Option AssembleError)
  | _, [] => []
  | shared, n :: rest =>
    match assocLookup supported_boards n with
    | none => []
    | some b =>
      let kw := resolve_soc_kwargs shared b a
      let r := assemble n b a
      (n, kw, r.1, r.2) ::
        (match r.2 with
         | some _ => []
         | none => run_boards a kw rest)

/-- An `--board all` invocation with every other flag left at its default. -/
def args_all : Args := { board := "all" }

/-- The full `--board all` run from the pristine `Board.soc_kwargs`. -/
def run_all : List (String × Dict × List AttachCall × Option AssembleError) :=
  run_boards args_all Board_soc_kwargs (supported_boards.map Prod.fst)

theorem dictLookup_setKey_self (d : Dict) (k : String) (v : Value) :
    dictLookup (setKey d k v) k = some v := by
  induction d with
  | nil => simp [setKey, dictLookup, assocLookup]
  | cons p rest ih =>
    by_cases h : p.1 = k
    · simp [setKey, h, dictLookup, assocLookup]
    · simpa [setKey, h, dictLookup, assocLookup] using ih

theorem dictLookup_setKey_ne (d : Dict) {k k' : String} (h : k' ≠ k) (v : Value) :
    dictLookup (setKey d k v) k' = dictLookup d k' := by
  induction d with
  | nil => simp [setKey, dictLookup, assocLookup, Ne.symm h]
  | cons p rest ih =>
    by_cases hp : p.1 = k
    · simp [setKey, hp, dictLookup, assocLookup, Ne.symm h]
    · by_cases hk : p.1 = k'
      · simp [setKey, hp, h, hk, dictLookup, assocLookup]
      · simpa [setKey, hp, dictLookup, assocLookup, hk] using ih

theorem dictLookup_eq_none_of_not_mem (d : Dict) (k : String)
    (h : k ∉ d.map Prod.fst) : dictLookup d k = none := by
  induction d with
  | nil => simp [dictLookup, assocLookup]
  | cons p rest ih =>
    simp only [List.map_cons, List.mem_cons] at h
    push_neg at h
    simpa [dictLookup, assocLookup, Ne.symm h.1] using ih h.2

theorem dictLookup_dictUpdate (d e : Dict) (k : String)
    (he : (e.map Prod.fst).Nodup) :
    dictLookup (dictUpdate d e) k = (dictLookup e k).or (dictLookup d k) := by
  induction e generalizing d with
  | nil => simp [dictUpdate, dictLookup, assocLookup]
  | cons p rest ih =>
    simp only [List.map_cons, List.nodup_cons] at he
    have hstep : dictUpdate d (p :: rest) = dictUpdate (setKey d p.1 p.2) rest := rfl
    rw [hstep, ih _ he.2]
    by_cases hk : k = p.1
    · subst hk
      rw [dictLookup_eq_none_of_not_mem rest _ he.1, dictLookup_setKey_self]
      simp [dictLookup, assocLookup]
    · rw [dictLookup_setKey_ne _ hk]
      simp [dictLookup, assocLookup, Ne.symm hk]

theorem dictLookup_applyCli_other (d : Dict) (a : Args) (k : String)
    (h1 : k ≠ "device") (h2 : k ≠ "variant") (h3 : k ≠ "toolchain") :
    dictLookup (applyCli d a) k = dictLookup d k := by
  unfold applyCli
  cases a.device <;> cases a.variant <;> cases a.toolchain <;>
    simp [dictLookup_setKey_ne, h1, h2, h3]

theorem dictLookup_applyCli_device (d : Dict) (a : Args) (x : String)
    (h : a.device = some x) :
    dictLookup (applyCli d a) "device" = some (Value.vstr x) := by
  unfold applyCli
  rw [h]
  cases a.variant <;> cases a.toolchain <;>
    simp [dictLookup_setKey_ne, dictLookup_setKey_self]

theorem dictLookup_applyCli_variant (d : Dict) (a : Args) (x : String)
    (h : a.variant = some x) :
    dictLookup (applyCli d a) "variant" = some (Value.vstr x) := by
  unfold applyCli
  rw [h]
  cases a.device <;> cases a.toolchain <;>
    simp [dictLookup_setKey_ne, dictLookup_setKey_self]

theorem dictLookup_applyCli_toolchain (d : Dict) (a : Args) (x : String)
    (h : a.toolchain = some x) :
    dictLookup (applyCli d a) "toolchain" = some (Value.vstr x) := by
  unfold applyCli
  rw [h]
  cases a.device <;> cases a.variant <;>
    simp [dictLookup_setKey_ne, dictLookup_setKey_self]

theorem dictLookup_applyCli_device_none (d : Dict) (a : Args)
    (h : a.device = none) :
    dictLookup (applyCli d a) "device" = dictLookup d "device" := by
  unfold applyCli
  rw [h]
  cases a.variant <;> cases a.toolchain <;> simp [dictLookup_setKey_ne]

theorem dictLookup_applyCli_variant_none (d : Dict) (a : Args)
    (h : a.variant = none) :
    dictLookup (applyCli d a) "variant" = dictLookup d "variant" := by
  unfold applyCli
  rw [h]
  cases a.device <;> cases a.toolchain <;> simp [dictLookup_setKey_ne]

theorem dictLookup_applyCli_toolchain_none (d : Dict) (a : Args)
    (h : a.toolchain = none) :
    dictLookup (applyCli d a) "toolchain" = dictLookup d "toolchain" := by
  unfold applyCli
  rw [h]
  cases a.device <;> cases a.variant <;> simp [dictLookup_setKey_ne]

theorem dictLookup_applyForcing_other (d : Dict) (caps : List String) (k : String)
    (h1 : k ≠ "uart_name") (h2 : k ≠ "with_ethernet") (h3 : k ≠ "with_sata") :
    dictLookup (applyCapabilityForcing d caps) k = dictLookup d k := by
  unfold applyCapabilityForcing
  split_ifs <;> simp [dictLookup_setKey_ne, h1, h2, h3]

theorem dictLookup_applyForcing_ethernet (d : Dict) (caps : List String)
    (h : "ethernet" ∈ caps) :
    dictLookup (applyCapabilityForcing d caps) "with_ethernet" = some (Value.vbool true) := by
  unfold applyCapabilityForcing
  split_ifs <;>
    simp_all [dictLookup_setKey_ne, dictLookup_setKey_self]

theorem dictLookup_applyForcing_sata (d : Dict) (caps : List String)
    (h : "sata" ∈ caps) :
    dictLookup (applyCapabilityForcing d caps) "with_sata" = some (Value.vbool true) := by
  unfold applyCapabilityForcing
  split_ifs <;>
    simp_all [dictLookup_setKey_ne, dictLookup_setKey_self]

theorem dictLookup_applyForcing_uart_acm (d : Dict) (caps : List String)
    (hf : "usb_fifo" ∈ caps) (ha : "usb_acm" ∈ caps) :
    dictLookup (applyCapabilityForcing d caps) "uart_name" = some (Value.vstr "usb_acm") := by
  unfold applyCapabilityForcing
  split_ifs <;>
    simp_all [dictLookup_setKey_ne, dictLookup_setKey_self]

/-- C4: a board whose capability set contains `"ethernet"` gets
`with_ethernet == true` forced into its resolved parameter set regardless
of any prior value for that key, and likewise `"sata"` forces
`with_sata == true` (make.py lines 495-498). -/
theorem capability_forces_ethernet_and_sata (shared : Dict) (b : BoardDesc) (a : Args) :
    ("ethernet" ∈ b.soc_capabilities →
      dictLookup (resolve_soc_kwargs shared b a) "with_ethernet" = some (Value.vbool true)) ∧
    ("sata" ∈ b.soc_capabilities →
      dictLookup (resolve_soc_kwargs shared b a) "with_sata" = some (Value.vbool true)) := by
  constructor
  · intro h
    exact dictLookup_applyForcing_ethernet _ _ h
  · intro h
    exact dictLookup_applyForcing_sata _ _ h

/-- Witness for C4: the Arty board (capabilities containing both
`"ethernet"` and, vacuously unused here, others) resolves with
`with_ethernet == true`; XCU1525 (capability `"sata"`) resolves with
`with_sata == true`. -/
theorem capability_forces_ethernet_and_sata_witness :
    dictLookup (resolve_soc_kwargs Board_soc_kwargs Arty { board := "arty" })
      "with_ethernet" = some (Value.vbool true) ∧
    dictLookup (resolve_soc_kwargs Board_soc_kwargs XCU1525 { board := "xcu1525" })
      "with_sata" = some (Value.vbool true) :=
  ⟨(capability_forces_ethernet_and_sata Board_soc_kwargs Arty { board := "arty" }).1
      (by decide),
   (capability_forces_ethernet_and_sata Board_soc_kwargs XCU1525 { board := "xcu1525" }).2
      (by decide)⟩

/-- C2: layered precedence for a board's resolved parameters, starting
from the pristine global `Board.soc_kwargs` (a single-board run).  A
board-declared override wins over the global default; the global default
is used when the board supplies no override (including boards without
their own `soc_kwargs` attribute, whose board layer is the self-update
of the shared dict); an explicitly set CLI flag wins over both; an unset
CLI flag (`None` sentinel) never overrides the merged defaults.  Keys
forced by the capability layer (`uart_name`, `with_ethernet`,
`with_sata`) are excluded where they could interfere. -/
theorem parameter_precedence (b : BoardDesc) (a : Args)
    (hnd : (b.soc_kwargs.map Prod.fst).Nodup) :
    (b.hasOwnSocKwargs = true →
      ∀ k v, dictLookup b.soc_kwargs k = some v →
        k ≠ "device" → k ≠ "variant" → k ≠ "toolchain" →
        k ≠ "uart_name" → k ≠ "with_ethernet" → k ≠ "with_sata" →
        dictLookup (resolve_soc_kwargs Board_soc_kwargs b a) k = some v) ∧
    (b.hasOwnSocKwargs = true →
      ∀ k, dictLookup b.soc_kwargs k = none →
        k ≠ "device" → k ≠ "variant" → k ≠ "toolchain" →
        k ≠ "uart_name" → k ≠ "with_ethernet" → k ≠ "with_sata" →
        dictLookup (resolve_soc_kwargs Board_soc_kwargs b a) k =
          dictLookup Board_soc_kwargs k) ∧
    (b.hasOwnSocKwargs = false →
      ∀ k, k ≠ "device" → k ≠ "variant" → k ≠ "toolchain" →
        k ≠ "uart_name" → k ≠ "with_ethernet" → k ≠ "with_sata" →
        dictLookup (resolve_soc_kwargs Board_soc_kwargs b a) k =
          dictLookup Board_soc_kwargs k) ∧
    (∀ x, a.device = some x →
      dictLookup (resolve_soc_kwargs Board_soc_kwargs b a) "device" =
        some (Value.vstr x)) ∧
    (∀ x, a.variant = some x →
      dictLookup (resolve_soc_kwargs Board_soc_kwargs b a) "variant" =
        some (Value.vstr x)) ∧
    (∀ x, a.toolchain = some x →
      dictLookup (resolve_soc_kwargs Board_soc_kwargs b a) "toolchain" =
        some (Value.vstr x)) ∧
    (a.device = none →
      dictLookup (resolve_soc_kwargs Board_soc_kwargs b a) "device" =
        dictLookup (dictUpdate Board_soc_kwargs
          (if b.hasOwnSocKwargs then b.soc_kwargs else Board_soc_kwargs)) "device") ∧
    (a.variant = none →
      dictLookup (resolve_soc_kwargs Board_soc_kwargs b a) "variant" =
        dictLookup (dictUpdate Board_soc_kwargs
          (if b.hasOwnSocKwargs then b.soc_kwargs else Board_soc_kwargs)) "variant") ∧
    (a.toolchain = none →
      dictLookup (resolve_soc_kwargs Board_soc_kwargs b a) "toolchain" =
        dictLookup (dictUpdate Board_soc_kwargs
          (if b.hasOwnSocKwargs then b.soc_kwargs else Board_soc_kwargs)) "toolchain") := by
  have hGnd : (Board_soc_kwargs.map Prod.fst).Nodup := by decide
  refine ⟨?_, ?_, ?_, ?_, ?_, ?_, ?_, ?_, ?_⟩
  · intro hown k v hk h1 h2 h3 h4 h5 h6
    unfold resolve_soc_kwargs
    rw [dictLookup_applyForcing_other _ _ _ h4 h5 h6,
        dictLookup_applyCli_other _ _ _ h1 h2 h3, hown, if_pos rfl,
        dictLookup_dictUpdate _ _ _ hnd, hk]
    rfl
  · intro hown k hk h1 h2 h3 h4 h5 h6
    unfold resolve_soc_kwargs
    rw [dictLookup_applyForcing_other _ _ _ h4 h5 h6,
        dictLookup_applyCli_other _ _ _ h1 h2 h3, hown, if_pos rfl,
        dictLookup_dictUpdate _ _ _ hnd, hk]
    rfl
  · intro hown k h1 h2 h3 h4 h5 h6
    unfold resolve_soc_kwargs
    rw [dictLookup_applyForcing_other _ _ _ h4 h5 h6,
        dictLookup_applyCli_other _ _ _ h1 h2 h3, hown, if_neg (by simp),
        dictLookup_dictUpdate _ _ _ hGnd, Option.or_self]
  · intro x hx
    unfold resolve_soc_kwargs
    rw [dictLookup_applyForcing_other _ _ _ (by decide) (by decide) (by decide),
        dictLookup_applyCli_device _ _ _ hx]
  · intro x hx
    unfold resolve_soc_kwargs
    rw [dictLookup_applyForcing_other _ _ _ (by decide) (by decide) (by decide),
        dictLookup_applyCli_variant _ _ _ hx]
  · intro x hx
    unfold resolve_soc_kwargs
    rw [dictLookup_applyForcing_other _ _ _ (by decide) (by decide) (by decide),
        dictLookup_applyCli_toolchain _ _ _ hx]
  · intro hx
    unfold resolve_soc_kwargs
    rw [dictLookup_applyForcing_other _ _ _ (by decide) (by decide) (by decide),
        dictLookup_applyCli_device_none _ _ hx]
  · intro hx
    unfold resolve_soc_kwargs
    rw [dictLookup_applyForcing_other _ _ _ (by decide) (by decide) (by decide),
        dictLookup_applyCli_variant_none _ _ hx]
  · intro hx
    unfold resolve_soc_kwargs
    rw [dictLookup_applyForcing_other _ _ _ (by decide) (by decide) (by decide),
        dictLookup_applyCli_toolchain_none _ _ hx]

/-- Witness for C2, the spec's own example: global default
`integrated_rom_size = 0x10000`, De0Nano board override `0x8000`, no CLI
override: the resolved value is `0x8000`; and with `--device xc7a35t`
explicitly set, the resolved `device` is that CLI value. -/
theorem parameter_precedence_witness :
    dictLookup (resolve_soc_kwargs Board_soc_kwargs De0Nano { board := "de0nano" })
      "integrated_rom_size" = some (Value.vint 0x8000) ∧
    dictLookup (resolve_soc_kwargs Board_soc_kwargs De0Nano
      { board := "de0nano", device := some "xc7a35t" }) "device" =
      some (Value.vstr "xc7a35t") :=
  ⟨(parameter_precedence De0Nano { board := "de0nano" } (by decide)).1 rfl
      "integrated_rom_size" (Value.vint 0x8000) (by decide)
      (by decide) (by decide) (by decide) (by decide) (by decide) (by decide),
   (parameter_precedence De0Nano { board := "de0nano", device := some "xc7a35t" }
      (by decide)).2.2.2.1 "xc7a35t" rfl⟩

/-- C9: when a capability set contains both `"usb_fifo"` and `"usb_acm"`,
the resolved `uart_name` is the fixed value `"usb_acm"` (the acm check is
sequenced after the fifo check at make.py lines 491-494 and overwrites
it), and the resolution depends on the capability set only through
membership, so two descriptors whose capability lists contain the same
tokens (in any order, with any multiplicity) resolve identically. -/
theorem transport_conflict_deterministic (shared : Dict) (b : BoardDesc) (a : Args)
    (hf : "usb_fifo" ∈ b.soc_capabilities) (ha : "usb_acm" ∈ b.soc_capabilities) :
    dictLookup (resolve_soc_kwargs shared b a) "uart_name" = some (Value.vstr "usb_acm") ∧
    (∀ b' : BoardDesc,
      (∀ t, t ∈ b.soc_capabilities ↔ t ∈ b'.soc_capabilities) →
      b.soc_kwargs = b'.soc_kwargs → b.hasOwnSocKwargs = b'.hasOwnSocKwargs →
      resolve_soc_kwargs shared b' a = resolve_soc_kwargs shared b a) := by
  constructor
  · exact dictLookup_applyForcing_uart_acm _ _ hf ha
  · intro b' hiff hkw hown
    unfold resolve_soc_kwargs applyCapabilityForcing
    rw [← hkw, ← hown]
    simp only [← hiff]

/-- Witness for C9: a descriptor listing `["usb_fifo", "usb_acm"]` resolves
`uart_name` to `"usb_acm"`, and the descriptor with the reversed
capability list resolves to the same parameter set. -/
theorem transport_conflict_deterministic_witness :
    dictLookup
      (resolve_soc_kwargs Board_soc_kwargs
        { socCls := "test", soc_capabilities := ["usb_fifo", "usb_acm"],
          hasOwnSocKwargs := false, bitstream_ext := ".bit" }
        { board := "test" }) "uart_name" = some (Value.vstr "usb_acm") ∧
    resolve_soc_kwargs Board_soc_kwargs
        { socCls := "test", soc_capabilities := ["usb_acm", "usb_fifo"],
          hasOwnSocKwargs := false, bitstream_ext := ".bit" }
        { board := "test" } =
      resolve_soc_kwargs Board_soc_kwargs
        { socCls := "test", soc_capabilities := ["usb_fifo", "usb_acm"],
          hasOwnSocKwargs := false, bitstream_ext := ".bit" }
        { board := "test" } :=
  ⟨(transport_conflict_deterministic Board_soc_kwargs
      { socCls := "test", soc_capabilities := ["usb_fifo", "usb_acm"],
        hasOwnSocKwargs := false, bitstream_ext := ".bit" }
      { board := "test" } (by decide) (by decide)).1,
   (transport_conflict_deterministic Board_soc_kwargs
      { socCls := "test", soc_capabilities := ["usb_fifo", "usb_acm"],
        hasOwnSocKwargs := false, bitstream_ext := ".bit" }
      { board := "test" } (by decide) (by decide)).2
     { socCls := "test", soc_capabilities := ["usb_acm", "usb_fifo"],
       hasOwnSocKwargs := false, bitstream_ext := ".bit" }
     (by intro t; constructor <;> (intro h; simp only [List.mem_cons] at h ⊢; tauto))
     rfl rfl⟩

theorem toNat_ofNat_valid (m : Nat) (h : m < 55296) : (Char.ofNat m).toNat = m := by
  have hv : m.isValidChar := Or.inl h
  simp only [Char.ofNat, dif_pos hv]
  rfl

theorem toLower_idem (c : Char) : c.toLower.toLower = c.toLower := by
  by_cases h : 65 ≤ c.toNat ∧ c.toNat ≤ 90
  · have h1 : c.toLower = Char.ofNat (c.toNat + 32) := by
      simp only [Char.toLower]
      rw [if_pos ⟨h.1, h.2⟩]
    have h2 : (Char.ofNat (c.toNat + 32)).toNat = c.toNat + 32 :=
      toNat_ofNat_valid _ (by omega)
    rw [h1]
    simp only [Char.toLower, h2]
    rw [if_neg (by omega)]
  · have h1 : c.toLower = c := by
      simp only [Char.toLower]
      rw [if_neg (fun hc => h ⟨hc.1, hc.2⟩)]
    rw [h1, h1]

theorem spaceToUnderscore_toLower_idem (c : Char) :
    spaceToUnderscore (Char.toLower (spaceToUnderscore (Char.toLower c))) =
      spaceToUnderscore (Char.toLower c) := by
  by_cases h : Char.toLower c = ' '
  · rw [h]
    decide
  · have h2 : spaceToUnderscore (Char.toLower c) = Char.toLower c := by
      unfold spaceToUnderscore
      rw [if_neg h]
    rw [h2, toLower_idem]
    exact h2

theorem normChar_idem_list (l : List Char) :
    (((l.map Char.toLower).map spaceToUnderscore).map Char.toLower).map spaceToUnderscore =
      (l.map Char.toLower).map spaceToUnderscore := by
  induction l with
  | nil => rfl
  | cons c l ih =>
    simp only [List.map_cons, List.cons.injEq]
    exact ⟨spaceToUnderscore_toLower_idem c, ih⟩

theorem normalizeBoardName_idem (s : String) :
    normalizeBoardName (normalizeBoardName s) = normalizeBoardName s :=
  congrArg String.mk (normChar_idem_list s.data)

/-- C6: board-name normalization (lowercase, then space-to-underscore) is
idempotent, and the case/space-insensitive variants `"Arty A7"`,
`"arty_a7"` and `"ARTY_A7"` all resolve to the ArtyA7 descriptor. -/
theorem normalization_idempotent_and_insensitive (s : String) :
    normalizeBoardName (normalizeBoardName s) = normalizeBoardName s ∧
    resolve_board "Arty A7" = some ArtyA7 ∧
    resolve_board "arty_a7" = some ArtyA7 ∧
    resolve_board "ARTY_A7" = some ArtyA7 :=
  ⟨normalizeBoardName_idem s, by decide, by decide, by decide⟩

/-- C5: a raw board name whose normalized form is absent from the
registry makes the pipeline fail as `unknownBoard` (the KeyError at
make.py line 480) before any SoC construction or attachment call, while
every registered name resolves to exactly one descriptor. -/
theorem unknown_board_rejected (raw : String) (a : Args) :
    (assocLookup supported_boards (normalizeBoardName raw) = none →
      board_pipeline Board_soc_kwargs (normalizeBoardName raw) a =
        PipelineOutcome.unknownBoard) ∧
    (∀ name, name ∈ supported_boards.map Prod.fst →
      ∃ d, resolve_board name = some d) := by
  constructor
  · intro h
    unfold board_pipeline
    rw [h]
  · intro name hmem
    fin_cases hmem <;> exact ⟨_, rfl⟩

/-- Witness for C5: `"not_a_board"` is rejected as an unknown board with
no SoC constructed, and the registered name `"arty"` resolves. -/
theorem unknown_board_rejected_witness :
    board_pipeline Board_soc_kwargs (normalizeBoardName "not_a_board")
      { board := "not_a_board" } = PipelineOutcome.unknownBoard ∧
    ∃ d, resolve_board "arty" = some d :=
  ⟨(unknown_board_rejected "not_a_board" { board := "not_a_board" }).1 (by decide),
   (unknown_board_rejected "not_a_board" { board := "not_a_board" }).2 "arty" (by decide)⟩

/-- C10: the `"all"` fan-out token is compared against the raw board
name before normalization (make.py line 471): exactly `"all"` selects
every registered board in registry order, any other spelling is
normalized and looked up as an ordinary board name, and `"ALL"`
normalizes to `"all"`, which is not a registry key. -/
theorem all_token_before_normalization (a : Args) :
    (a.board = "all" → board_names a = supported_boards.map Prod.fst) ∧
    (a.board ≠ "all" → board_names a = [normalizeBoardName a.board]) ∧
    normalizeBoardName "ALL" = "all" ∧
    assocLookup supported_boards "all" = none := by
  refine ⟨?_, ?_, by decide, by decide⟩
  · intro h
    unfold board_names
    rw [if_pos h]
  · intro h
    unfold board_names
    rw [if_neg h]

/-- Witness for C10: `--board ALL` selects the single (unknown) name
`"all"` rather than fanning out, while `--board all` fans out to the
whole registry. -/
theorem all_token_before_normalization_witness :
    board_names { board := "ALL" } = ["all"] ∧
    assocLookup supported_boards "all" = none ∧
    board_names { board := "all" } = supported_boards.map Prod.fst :=
  ⟨by rw [(all_token_before_normalization { board := "ALL" }).2.1 (by decide)]; decide,
   (all_token_before_normalization { board := "ALL" }).2.2.2,
   (all_token_before_normalization { board := "all" }).1 rfl⟩

theorem add_framebuffer_not_mem_midCalls (b : BoardDesc) (a : Args) (vs : VideoTiming) :
    AttachCall.add_framebuffer vs ∉ midCalls b a := by
  simp [midCalls]

theorem configure_boot_not_mem_midCalls (b : BoardDesc) (a : Args) :
    AttachCall.configure_boot ∉ midCalls b a := by
  simp [midCalls]

theorem configure_boot_not_mem_icapCalls (b : BoardDesc) :
    AttachCall.configure_boot ∉ icapCalls b := by
  simp [icapCalls]

theorem append_split_last {α : Type} (p m : List α) (x : α)
    (hp : x ∉ p) (hm : x ∉ m) :
    ∃ l, p ++ (m ++ [x]) = l ++ [x] ∧ x ∉ l :=
  ⟨p ++ m, by simp, by simp [hp, hm]⟩

theorem tailCalls_success (b : BoardDesc) (a : Args)
    (h : (tailCalls b a).2 = none) :
    ∃ m, (tailCalls b a).1 = m ++ [AttachCall.configure_boot] ∧
      AttachCall.configure_boot ∉ m := by
  unfold tailCalls at h ⊢
  by_cases hf : "framebuffer" ∈ b.soc_capabilities
  · rw [if_pos hf] at h ⊢
    cases hv : assocLookup video_resolutions a.video with
    | none =>
      rw [hv] at h
      simp at h
    | some vs =>
      exact ⟨AttachCall.add_framebuffer vs :: icapCalls b,
        by simp, by simp [icapCalls]⟩
  · rw [if_neg hf] at h ⊢
    exact ⟨icapCalls b, rfl, configure_boot_not_mem_icapCalls b⟩

/-- C3 (amended): when a board has the `framebuffer` capability and the
requested video mode is absent from the resolution table, assembly fails
with the configuration error (the assert at make.py line 534) before the
framebuffer attachment itself — no `add_framebuffer` and no
`configure_boot` call is emitted — but attachments for capabilities
evaluated earlier in the rule order have already been made. -/
theorem framebuffer_precondition_fails_inline (name : String) (b : BoardDesc) (a : Args)
    (hf : "framebuffer" ∈ b.soc_capabilities)
    (hv : assocLookup video_resolutions a.video = none)
    (hsf : "spiflash" ∈ b.soc_capabilities → b.spiflash.isSome) :
    (assemble name b a).2 = some AssembleError.configurationError ∧
    (∀ vs, AttachCall.add_framebuffer vs ∉ (assemble name b a).1) ∧
    AttachCall.configure_boot ∉ (assemble name b a).1 := by
  have ht : tailCalls b a = ([], some AssembleError.configurationError) := by
    unfold tailCalls
    rw [if_pos hf, hv]
  by_cases hs : "spiflash" ∈ b.soc_capabilities
  · obtain ⟨c, hc⟩ := Option.isSome_iff_exists.mp (hsf hs)
    refine ⟨?_, ?_, ?_⟩ <;>
      simp [assemble, hs, hc, ht, midCalls]
  · refine ⟨?_, ?_, ?_⟩ <;>
      simp [assemble, hs, ht, midCalls]

/-- Counterexample to C3 as stated: for NeTV2 with the unsupported video
mode `"999x999_1Hz"`, the run does fail with the configuration error,
but six attachment calls (spiflash with its constants, SPI sdcard,
ethernet configuration, XADC) have already been made against the SoC —
not zero. -/
theorem framebuffer_zero_attachments_is_false :
    (assemble "netv2" NeTV2 { board := "netv2", video := "999x999_1Hz" }).2 =
      some AssembleError.configurationError ∧
    (assemble "netv2" NeTV2 { board := "netv2", video := "999x999_1Hz" }).1 =
      [AttachCall.add_spi_flash 11,
       AttachCall.add_constant "SPIFLASH_PAGE_SIZE" 256,
       AttachCall.add_constant "SPIFLASH_SECTOR_SIZE" 65536,
       AttachCall.add_spi_sdcard,
       AttachCall.configure_ethernet "192.168.1.50" "192.168.1.100",
       AttachCall.add_xadc] := by
  constructor <;> rfl

/-- Witness for C3 (amended), at NeTV2 with video mode `"999x999_1Hz"`. -/
theorem framebuffer_precondition_fails_inline_witness :
    (assemble "netv2" NeTV2 { board := "netv2", video := "999x999_1Hz" }).2 =
      some AssembleError.configurationError ∧
    (∀ vs, AttachCall.add_framebuffer vs ∉
      (assemble "netv2" NeTV2 { board := "netv2", video := "999x999_1Hz" }).1) ∧
    AttachCall.configure_boot ∉
      (assemble "netv2" NeTV2 { board := "netv2", video := "999x999_1Hz" }).1 :=
  framebuffer_precondition_fails_inline "netv2" NeTV2
    { board := "netv2", video := "999x999_1Hz" }
    (by decide) (by decide) (fun _ => by decide)

/-- C7: for a board with both the `mmcm` and `spiflash` capabilities, the
clock-multiplier attachment occurs strictly before the SPI-flash
attachment in the emitted call sequence, and the SPI-flash attachment
carries the board's dummy-cycle count immediately followed by its
page-size and sector-size constants (make.py lines 509-514). -/
theorem mmcm_before_spiflash (name : String) (b : BoardDesc) (a : Args)
    (c : SpiFlashConstants)
    (hm : "mmcm" ∈ b.soc_capabilities) (hs : "spiflash" ∈ b.soc_capabilities)
    (hc : b.spiflash = some c) :
    ∃ i j, i < j ∧
      (assemble name b a).1[i]? = some (AttachCall.add_mmcm 2) ∧
      (assemble name b a).1[j]? = some (AttachCall.add_spi_flash c.dummyCycles) ∧
      (assemble name b a).1[j + 1]? =
        some (AttachCall.add_constant "SPIFLASH_PAGE_SIZE" c.pageSize) ∧
      (assemble name b a).1[j + 2]? =
        some (AttachCall.add_constant "SPIFLASH_SECTOR_SIZE" c.sectorSize) := by
  by_cases he : name = "arty" ∨ name = "arty_a7"
  · refine ⟨1, 2, by omega, ?_, ?_, ?_, ?_⟩ <;>
      simp [assemble, hs, hc, hm, he]
  · refine ⟨0, 1, by omega, ?_, ?_, ?_, ?_⟩ <;>
      simp [assemble, hs, hc, hm, he]

/-- Witness for C7, at the Arty board with default arguments. -/
theorem mmcm_before_spiflash_witness :
    ∃ i j, i < j ∧
      (assemble "arty" Arty { board := "arty" }).1[i]? = some (AttachCall.add_mmcm 2) ∧
      (assemble "arty" Arty { board := "arty" }).1[j]? =
        some (AttachCall.add_spi_flash 11) ∧
      (assemble "arty" Arty { board := "arty" }).1[j + 1]? =
        some (AttachCall.add_constant "SPIFLASH_PAGE_SIZE" 256) ∧
      (assemble "arty" Arty { board := "arty" }).1[j + 2]? =
        some (AttachCall.add_constant "SPIFLASH_SECTOR_SIZE" 65536) :=
  mmcm_before_spiflash "arty" Arty { board := "arty" }
    { pageSize := 256, sectorSize := 65536, dummyCycles := 11 }
    (by decide) (by decide) (by decide)

/-- C8: whenever a board's assembly completes without error, the
unconditional `soc.configure_boot()` (make.py line 539) is the final
element of the attachment call sequence and occurs nowhere earlier, so it
runs exactly once, after every capability-triggered attachment. -/
theorem configure_boot_last_and_once (name : String) (b : BoardDesc) (a : Args)
    (h : (assemble name b a).2 = none) :
    ∃ l, (assemble name b a).1 = l ++ [AttachCall.configure_boot] ∧
      AttachCall.configure_boot ∉ l := by
  unfold assemble at h ⊢
  by_cases hs : "spiflash" ∈ b.soc_capabilities
  · rw [if_pos hs] at h ⊢
    cases hc : b.spiflash with
    | none =>
      rw [hc] at h
      simp at h
    | some c =>
      rw [hc] at h
      simp only at h ⊢
      obtain ⟨m, hm, hcb⟩ := tailCalls_success b a h
      refine ⟨(if name = "arty" ∨ name = "arty_a7"
            then [AttachCall.add_sdcard_pmod_extension] else []) ++
          (if "mmcm" ∈ b.soc_capabilities then [AttachCall.add_mmcm 2] else []) ++
          [AttachCall.add_spi_flash c.dummyCycles,
           AttachCall.add_constant "SPIFLASH_PAGE_SIZE" c.pageSize,
           AttachCall.add_constant "SPIFLASH_SECTOR_SIZE" c.sectorSize] ++
          midCalls b a ++ m, ?_, ?_⟩
      · rw [hm]
        simp
      · simp [midCalls, hcb]
  · rw [if_neg hs] at h ⊢
    simp only at h ⊢
    obtain ⟨m, hm, hcb⟩ := tailCalls_success b a h
    refine ⟨(if name = "arty" ∨ name = "arty_a7"
          then [AttachCall.add_sdcard_pmod_extension] else []) ++
        (if "mmcm" ∈ b.soc_capabilities then [AttachCall.add_mmcm 2] else []) ++
        midCalls b a ++ m, ?_, ?_⟩
    · rw [hm]
      simp
    · simp [midCalls, hcb]

/-- Witness for C8, at the ZCU104 board with default arguments. -/
theorem configure_boot_last_and_once_witness :
    ∃ l, (assemble "zcu104" ZCU104 { board := "zcu104" }).1 =
        l ++ [AttachCall.configure_boot] ∧
      AttachCall.configure_boot ∉ l :=
  configure_boot_last_and_once "zcu104" ZCU104 { board := "zcu104" } (by decide)

/-- C1 fails on the code: in the `--board all` run, line 483 binds the
shared `Board.soc_kwargs` object without copying it, so the
capability-forced values written while resolving earlier boards (e.g.
`with_sata` from acorn_cle_215, `with_ethernet` from arty) are still in
the shared dict when ZCU104 — whose capability set is only
`{"serial"}`, which has no own `soc_kwargs`, and which gets no CLI
overrides — is resolved: its resolved parameter set contains
`with_sata == True` and `with_ethernet == True` although none of its
own layers supplies those keys. -/
theorem shared_soc_kwargs_leak_across_boards :
    (assocLookup run_all "zcu104").map (fun e => dictLookup e.1 "with_sata") =
      some (some (Value.vbool true)) ∧
    (assocLookup run_all "zcu104").map (fun e => dictLookup e.1 "with_ethernet") =
      some (some (Value.vbool true)) ∧
    assocLookup supported_boards "zcu104" = some ZCU104 ∧
    "sata" ∉ ZCU104.soc_capabilities ∧
    "ethernet" ∉ ZCU104.soc_capabilities ∧
    ZCU104.hasOwnSocKwargs = false ∧
    dictLookup Board_soc_kwargs "with_sata" = none ∧
    dictLookup Board_soc_kwargs "with_ethernet" = none ∧
    args_all.device = none ∧ args_all.variant = none ∧ args_all.toolchain = none := by
  decide

end LitexLinux
